import Mathlib

/-!
Shallow embedding of the Discord presence-tracking bot (`bot.py`).

The model covers the Session Tracker (`on_voice_state_update`), the
Duration Store helpers (`get_user_stat`, `increment_user_stat`,
`load_stats`, `save_stats`), the Query Service commands (`calltime`,
`streamtime`, `joincount`) and `format_duration`.

Modelling conventions:
* Python numbers (floats from `time.time()` and ints) are modelled as `ℚ`.
* Python dicts keyed by user id are modelled as functions `Nat → Option α`
  (a dict holds at most one value per key, exactly like such a function).
* Each processed event carries the value `t` returned by `time.time()`
  while the handler runs.
* The only statement in the handler that can raise is the
  `print(f"... {after.channel.name}")` in the stream-start branch when
  `after.channel` is `None` (an `AttributeError` on `None`); the handler
  is therefore modelled as returning the mutated state together with a
  `Bool` flag that is `true` exactly when that access raises.  The
  hosting framework catches handler exceptions, so mutations made before
  the raise persist, which the model reflects by still returning the
  partial state.
-/

namespace DiscordBot

/-- The three stat fields stored per user in `user_stats`. -/
inductive StatName
  | call_time
  | stream_time
  | join_count
deriving DecidableEq, Repr

/-- A per-user record, as stored in the `user_stats` dict.  Each field is
optional because a record loaded from disk may lack a key; `.get(name, 0)`
then falls back to the default. -/
structure UserStats where
  call_time : Option ℚ
  stream_time : Option ℚ
  join_count : Option ℚ
deriving DecidableEq, Repr

/-- The record materialized for a user on first access:
`{"call_time": 0, "stream_time": 0, "join_count": 0}`. -/
def defaultStats : UserStats := ⟨some 0, some 0, some 0⟩

/-- Dictionary lookup `record.get(stat_name, ...)` restricted to the three
known field names. -/
def UserStats.get : UserStats → StatName → Option ℚ
  | r, .call_time => r.call_time
  | r, .stream_time => r.stream_time
  | r, .join_count => r.join_count

/-- Field assignment `record[stat_name] = v`. -/
def UserStats.set : UserStats → StatName → ℚ → UserStats
  | r, .call_time, v => { r with call_time := some v }
  | r, .stream_time, v => { r with stream_time := some v }
  | r, .join_count, v => { r with join_count := some v }

/-- A Python dict keyed by integer user ids. -/
abbrev Dict (α : Type) := Nat → Option α

/-- An empty dict `{}`. -/
def Dict.empty {α : Type} : Dict α := fun _ => none

/-- Assignment `d[k] = v`. -/
def Dict.insert {α : Type} (d : Dict α) (k : Nat) (v : α) : Dict α :=
  fun k' => if k' = k then some v else d k'

/-- Removal `d.pop(k)` (the returned value is read separately). -/
def Dict.pop {α : Type} (d : Dict α) (k : Nat) : Dict α :=
  fun k' => if k' = k then none else d k'

/-- The three module-level mutable dicts of the bot. -/
structure BotState where
  user_stats : Dict UserStats
  voice_join_times : Dict ℚ
  stream_start_times : Dict ℚ

/-- All three dicts start empty. -/
def initState : BotState := ⟨Dict.empty, Dict.empty, Dict.empty⟩

/-- Model of `get_user_stat(user_id, stat_name, default=0)`: materializes a
zero-valued record when the user is absent, then returns
`user_stats[user_id].get(stat_name, 0)`.  Returns the value together with
the (possibly mutated) state. -/
def get_user_stat (s : BotState) (uid : Nat) (name : StatName) : ℚ × BotState :=
  match s.user_stats uid with
  | some r => ((r.get name).getD 0, s)
  | none =>
      (((defaultStats.get name).getD 0),
        { s with user_stats := s.user_stats.insert uid defaultStats })

/-- Model of `increment_user_stat(user_id, stat_name, value)`: reads the current
value via `get_user_stat` (which materializes the record), then writes
`current_value + value` into the field.  The `if user_id not in
user_stats` re-initialization in the source is unreachable after
`get_user_stat` and is modelled by the same presence test; the final
`none` branch is likewise unreachable (the source would raise `KeyError`
there). -/
def increment_user_stat (s : BotState) (uid : Nat) (name : StatName) (value : ℚ) : BotState :=
  let res := get_user_stat s uid name
  let s1 := res.2
  let s2 :=
    if (s1.user_stats uid).isSome then s1
    else { s1 with user_stats := s1.user_stats.insert uid defaultStats }
  match s2.user_stats uid with
  | some r => { s2 with user_stats := s2.user_stats.insert uid (r.set name (res.1 + value)) }
  | none => s2

/-- Model of `format_duration(seconds)`: clamps negatives to zero, then renders
`timedelta(seconds=int(seconds))`.  Only the whole-second count passed to
`timedelta` is modelled (the rendering is pure formatting). -/
def format_duration (seconds : ℚ) : ℤ :=
  Int.floor (if seconds < 0 then (0 : ℚ) else seconds)

/-- One voice state snapshot of a member: the channel (its id; the name is
only used for logging) and the `self_stream` flag. -/
structure VoiceState where
  channel : Option Nat
  self_stream : Bool
deriving DecidableEq, Repr

/-- One `on_voice_state_update(member, before, after)` invocation,
together with the value `t` that `time.time()` returns while it runs. -/
structure VoiceEvent where
  member_id : Nat
  t : ℚ
  before : VoiceState
  after : VoiceState
deriving DecidableEq, Repr

/-- The event handler.  Returns the new state and a flag that is `true`
exactly when the handler raises (`after.channel.name` on `None` in the
stream-start branch); mutations made before the raise are kept. -/
def on_voice_state_update (e : VoiceEvent) (s : BotState) : BotState × Bool :=
  let uid := e.member_id
  -- Join/Leave tracking
  let s1 :=
    match e.before.channel, e.after.channel with
    | none, some _ =>
        -- joined: record join time, bump join_count
        let sA := { s with voice_join_times := s.voice_join_times.insert uid e.t }
        increment_user_stat sA uid .join_count 1
    | some _, none =>
        -- left: close the call session, then any open stream session
        let sB :=
          match s.voice_join_times uid with
          | some join_time =>
              let sB' := { s with voice_join_times := s.voice_join_times.pop uid }
              increment_user_stat sB' uid .call_time (e.t - join_time)
          | none => s
        match sB.stream_start_times uid with
        | some start_time =>
            let sC := { sB with stream_start_times := sB.stream_start_times.pop uid }
            increment_user_stat sC uid .stream_time (e.t - start_time)
        | none => sB
    | _, _ => s
  -- Streaming tracking
  if !e.before.self_stream && e.after.self_stream then
    match e.after.channel with
    | none => (s1, true)  -- print of after.channel.name raises AttributeError
    | some _ => ({ s1 with stream_start_times := s1.stream_start_times.insert uid e.t }, false)
  else if e.before.self_stream && !e.after.self_stream && e.after.channel.isSome then
    match s1.stream_start_times uid with
    | some start_time =>
        let s2 := { s1 with stream_start_times := s1.stream_start_times.pop uid }
        (increment_user_stat s2 uid .stream_time (e.t - start_time), false)
    | none => (s1, false)
  else (s1, false)

/-- Folding a serial event stream through the handler.  The framework
catches handler exceptions, so processing continues with the state the
handler left behind. -/
def processEvents (evs : List VoiceEvent) (s : BotState) : BotState :=
  evs.foldl (fun st e => (on_voice_state_update e st).1) s

/-- Slash command `/calltime`: committed `call_time` plus the live elapsed time of an
open call session.  Returns the computed `total_seconds` and the state
left behind by `get_user_stat`. -/
def calltime (now : ℚ) (s : BotState) (uid : Nat) : ℚ × BotState :=
  let res := get_user_stat s uid .call_time
  match res.2.voice_join_times uid with
  | some join_time => (res.1 + (now - join_time), res.2)
  | none => (res.1, res.2)

/-- Slash command `/streamtime`: committed `stream_time` plus the live elapsed time of
an open stream session. -/
def streamtime (now : ℚ) (s : BotState) (uid : Nat) : ℚ × BotState :=
  let res := get_user_stat s uid .stream_time
  match res.2.stream_start_times uid with
  | some start_time => (res.1 + (now - start_time), res.2)
  | none => (res.1, res.2)

/-- Slash command `/joincount`: committed `join_count` (no open-session contribution). -/
def joincount (s : BotState) (uid : Nat) : ℚ × BotState :=
  get_user_stat s uid .join_count

/-- Model of `str(k)`: the decimal digit string of a key, modelled as its base-10
digit list (`str` of a natural number never has a sign or spaces; `0`
renders as the single digit `0`). -/
def encodeKey (n : Nat) : List Nat :=
  if n = 0 then [0] else Nat.digits 10 n

/-- Model of `int(k)`: parses a digit list back to a number; raises (here: `none`)
when the list is empty or contains a non-digit character. -/
def decodeKey (l : List Nat) : Option Nat :=
  if l ≠ [] ∧ ∀ d ∈ l, d < 10 then some (Nat.ofDigits 10 l) else none

/-- Model of the `save_stats` body `{str(k): v for k, v in user_stats.items()}`,
serialized to JSON.  Number values round-trip through JSON, so only the
key conversion is modelled. -/
def save_stats (m : List (Nat × UserStats)) : List (List Nat × UserStats) :=
  m.map (fun kv => (encodeKey kv.1, kv.2))

/-- Model of `{int(k): v for k, v in user_stats.items()}`: fails (raising inside
the `try`) as soon as one key does not parse. -/
def decodeEntries : List (List Nat × UserStats) → Option (List (Nat × UserStats))
  | [] => some []
  | (k, v) :: rest =>
      match decodeKey k, decodeEntries rest with
      | some n, some m => some ((n, v) :: m)
      | _, _ => none

/-- Model of `load_stats()`.  The input models the backing file: `none` = file
missing, `some none` = unparseable JSON (`json.JSONDecodeError`),
`some (some entries)` = parsed key/value pairs.  A key-conversion failure
is caught by the `except Exception` clause; every failure path yields the
empty mapping. -/
def load_stats (file : Option (Option (List (List Nat × UserStats)))) :
    List (Nat × UserStats) :=
  match file with
  | none => []
  | some none => []
  | some (some entries) =>
      match decodeEntries entries with
      | some m => m
      | none => []

/-- Observer: the committed value of one stat inside an optional stored
record (absent record or absent field ↦ 0). -/
def statOf (r? : Option UserStats) (name : StatName) : ℚ :=
  match r? with
  | some r => (r.get name).getD 0
  | none => 0

/-- Observer: the committed value of one stat, reading the store the way
`get_user_stat` would without mutating (absent user or absent field ↦ 0). -/
def committedStat (s : BotState) (uid : Nat) (name : StatName) : ℚ :=
  statOf (s.user_stats uid) name

/-- Observer: the state effect shared by `get_user_stat` and every query:
materialize the zero record for an absent user, change nothing else. -/
def touchUser (s : BotState) (uid : Nat) : BotState :=
  match s.user_stats uid with
  | some _ => s
  | none => { s with user_stats := s.user_stats.insert uid defaultStats }

/-- A `Closed → Open` call-kind transition for user `uid`: the before
snapshot shows no channel and the after snapshot shows one. -/
def isJoinEvent (uid : Nat) (e : VoiceEvent) : Bool :=
  e.member_id = uid && e.before.channel.isNone && e.after.channel.isSome

/-- Observer: the record `get_user_stat` leaves in place for `uid`. -/
def userRec (s : BotState) (uid : Nat) : UserStats :=
  (s.user_stats uid).getD defaultStats

/-- Sample state for concrete witnesses: user 1 has committed stats
`call_time = 5`, `stream_time = 2`, `join_count = 3`, an open call
session since `t = 10` and an open stream session since `t = 20`. -/
def sampleState : BotState :=
  ⟨Dict.empty.insert 1 ⟨some 5, some 2, some 3⟩,
   Dict.empty.insert 1 10,
   Dict.empty.insert 1 20⟩

/-- Sample state whose stored record for user 1 lacks the `call_time` and
`join_count` fields (as a hand-edited stats file could produce). -/
def partialState : BotState :=
  ⟨Dict.empty.insert 1 ⟨none, some 2, none⟩, Dict.empty, Dict.empty⟩

/-! ### Basic lemmas about the record and dict operations -/

@[simp]
lemma UserStats.get_set_self (r : UserStats) (n : StatName) (v : ℚ) :
    (r.set n v).get n = some v := by
  cases n <;> rfl

lemma UserStats.get_set_other (r : UserStats) (n n' : StatName) (v : ℚ) (h : n' ≠ n) :
    (r.set n v).get n' = r.get n' := by
  cases n <;> cases n' <;> simp_all [UserStats.get, UserStats.set]

@[simp]
lemma defaultStats_get (n : StatName) : (defaultStats.get n).getD 0 = 0 := by
  cases n <;> rfl

@[simp]
lemma Dict.insert_self {α : Type} (d : Dict α) (k : Nat) (v : α) :
    d.insert k v k = some v := by
  simp [Dict.insert]

lemma Dict.insert_other {α : Type} (d : Dict α) (k k' : Nat) (v : α) (h : k' ≠ k) :
    d.insert k v k' = d k' := by
  simp [Dict.insert, h]

@[simp]
lemma Dict.pop_self {α : Type} (d : Dict α) (k : Nat) : d.pop k k = none := by
  simp [Dict.pop]

lemma Dict.pop_other {α : Type} (d : Dict α) (k k' : Nat) (h : k' ≠ k) :
    d.pop k k' = d k' := by
  simp [Dict.pop, h]

/-! ### The state effect and return value of `get_user_stat` -/

@[simp]
lemma statOf_some (r : UserStats) (n : StatName) :
    statOf (some r) n = (r.get n).getD 0 := rfl

@[simp]
lemma statOf_none (n : StatName) : statOf none n = 0 := rfl

lemma get_user_stat_fst (s : BotState) (uid : Nat) (name : StatName) :
    (get_user_stat s uid name).1 = committedStat s uid name := by
  unfold get_user_stat committedStat
  cases h : s.user_stats uid <;> simp [h]

lemma get_user_stat_snd (s : BotState) (uid : Nat) (name : StatName) :
    (get_user_stat s uid name).2 = touchUser s uid := by
  unfold get_user_stat touchUser
  cases h : s.user_stats uid <;> simp

@[simp]
lemma touchUser_voice_join_times (s : BotState) (uid : Nat) :
    (touchUser s uid).voice_join_times = s.voice_join_times := by
  unfold touchUser
  cases h : s.user_stats uid <;> rfl

@[simp]
lemma touchUser_stream_start_times (s : BotState) (uid : Nat) :
    (touchUser s uid).stream_start_times = s.stream_start_times := by
  unfold touchUser
  cases h : s.user_stats uid <;> rfl

lemma touchUser_user_stats_other (s : BotState) (uid k : Nat) (h : k ≠ uid) :
    (touchUser s uid).user_stats k = s.user_stats k := by
  unfold touchUser
  cases hu : s.user_stats uid
  · simp [Dict.insert_other _ _ _ _ h]
  · rfl

lemma touchUser_of_some (s : BotState) (uid : Nat) (r : UserStats)
    (h : s.user_stats uid = some r) : touchUser s uid = s := by
  unfold touchUser
  simp [h]

lemma touchUser_user_stats_none (s : BotState) (uid : Nat)
    (h : s.user_stats uid = none) :
    (touchUser s uid).user_stats uid = some defaultStats := by
  unfold touchUser
  simp [h]

lemma committedStat_touchUser (s : BotState) (uid k : Nat) (n : StatName) :
    committedStat (touchUser s uid) k n = committedStat s k n := by
  unfold touchUser
  cases hu : s.user_stats uid
  · unfold committedStat
    by_cases hk : k = uid
    · subst hk
      simp [hu]
    · simp [Dict.insert_other _ _ _ _ hk]
  · rfl

/-! ### A closed form for `increment_user_stat` -/

lemma Dict.insert_insert {α : Type} (d : Dict α) (k : Nat) (v w : α) :
    (d.insert k v).insert k w = d.insert k w := by
  funext k'
  by_cases hk : k' = k <;> simp [Dict.insert, hk]

lemma increment_user_stat_eq (s : BotState) (uid : Nat) (n : StatName) (v : ℚ) :
    increment_user_stat s uid n v =
      { s with user_stats :=
          s.user_stats.insert uid ((userRec s uid).set n (committedStat s uid n + v)) } := by
  obtain ⟨us, vj, st⟩ := s
  unfold increment_user_stat get_user_stat userRec committedStat
  cases h : us uid
  · simp [h, Dict.insert_insert]
  · simp [h]

lemma increment_voice_join_times (s : BotState) (uid : Nat) (n : StatName) (v : ℚ) :
    (increment_user_stat s uid n v).voice_join_times = s.voice_join_times := by
  rw [increment_user_stat_eq]

lemma increment_stream_start_times (s : BotState) (uid : Nat) (n : StatName) (v : ℚ) :
    (increment_user_stat s uid n v).stream_start_times = s.stream_start_times := by
  rw [increment_user_stat_eq]

lemma increment_user_stats_other (s : BotState) (uid k : Nat) (n : StatName) (v : ℚ)
    (h : k ≠ uid) :
    (increment_user_stat s uid n v).user_stats k = s.user_stats k := by
  rw [increment_user_stat_eq]
  simp [Dict.insert_other _ _ _ _ h]

lemma committedStat_increment_self (s : BotState) (uid : Nat) (n : StatName) (v : ℚ) :
    committedStat (increment_user_stat s uid n v) uid n = committedStat s uid n + v := by
  rw [increment_user_stat_eq]
  unfold committedStat
  simp [Dict.insert_self]

lemma committedStat_increment_other (s : BotState) (uid k : Nat) (n n' : StatName) (v : ℚ)
    (h : k ≠ uid ∨ n' ≠ n) :
    committedStat (increment_user_stat s uid n v) k n' = committedStat s k n' := by
  rw [increment_user_stat_eq]
  rcases h with h | h
  · unfold committedStat
    simp [Dict.insert_other _ _ _ _ h]
  · by_cases hk : k = uid
    · subst hk
      unfold committedStat userRec
      simp [Dict.insert_self, UserStats.get_set_other _ _ _ _ h]
      cases hu : s.user_stats k <;> simp [hu]
    · unfold committedStat
      simp [Dict.insert_other _ _ _ _ hk]

/-! ### Frame lemmas specialised for the handler proofs -/

@[simp]
lemma committedStat_eq (s : BotState) (uid : Nat) (n : StatName) :
    committedStat s uid n = statOf (s.user_stats uid) n := rfl

attribute [simp] increment_voice_join_times increment_stream_start_times

@[simp]
lemma statOf_increment_self (s : BotState) (uid : Nat) (n : StatName) (v : ℚ) :
    statOf ((increment_user_stat s uid n v).user_stats uid) n
      = statOf (s.user_stats uid) n + v :=
  committedStat_increment_self s uid n v

lemma statOf_increment_other (s : BotState) (uid k : Nat) (n n' : StatName) (v : ℚ)
    (h : k ≠ uid ∨ n' ≠ n) :
    statOf ((increment_user_stat s uid n v).user_stats k) n'
      = statOf (s.user_stats k) n' :=
  committedStat_increment_other s uid k n n' v h

@[simp]
lemma statOf_increment_call_join (s : BotState) (u k : Nat) (v : ℚ) :
    statOf ((increment_user_stat s u .call_time v).user_stats k) .join_count
      = statOf (s.user_stats k) .join_count :=
  statOf_increment_other _ _ _ _ _ _ (Or.inr (by simp))

@[simp]
lemma statOf_increment_stream_join (s : BotState) (u k : Nat) (v : ℚ) :
    statOf ((increment_user_stat s u .stream_time v).user_stats k) .join_count
      = statOf (s.user_stats k) .join_count :=
  statOf_increment_other _ _ _ _ _ _ (Or.inr (by simp))

@[simp]
lemma statOf_increment_stream_call (s : BotState) (u k : Nat) (v : ℚ) :
    statOf ((increment_user_stat s u .stream_time v).user_stats k) .call_time
      = statOf (s.user_stats k) .call_time :=
  statOf_increment_other _ _ _ _ _ _ (Or.inr (by simp))

@[simp]
lemma statOf_increment_call_stream (s : BotState) (u k : Nat) (v : ℚ) :
    statOf ((increment_user_stat s u .call_time v).user_stats k) .stream_time
      = statOf (s.user_stats k) .stream_time :=
  statOf_increment_other _ _ _ _ _ _ (Or.inr (by simp))

@[simp]
lemma statOf_increment_join_call (s : BotState) (u k : Nat) (v : ℚ) :
    statOf ((increment_user_stat s u .join_count v).user_stats k) .call_time
      = statOf (s.user_stats k) .call_time :=
  statOf_increment_other _ _ _ _ _ _ (Or.inr (by simp))

@[simp]
lemma statOf_increment_join_stream (s : BotState) (u k : Nat) (v : ℚ) :
    statOf ((increment_user_stat s u .join_count v).user_stats k) .stream_time
      = statOf (s.user_stats k) .stream_time :=
  statOf_increment_other _ _ _ _ _ _ (Or.inr (by simp))

/-! ### The leave branch (`before` in a channel, `after` not) -/

lemma leave_committed_call_time (s : BotState) (uid c : Nat) (t jt : ℚ) (bss ass : Bool)
    (hj : s.voice_join_times uid = some jt) :
    committedStat (on_voice_state_update ⟨uid, t, ⟨some c, bss⟩, ⟨none, ass⟩⟩ s).1
        uid .call_time
      = committedStat s uid .call_time + (t - jt) := by
  cases bss <;> cases ass <;>
    · simp only [on_voice_state_update]
      simp only [hj]
      cases hs : s.stream_start_times uid <;>
        simp [hs, committedStat_increment_self]

lemma leave_committed_stream_time (s : BotState) (uid c : Nat) (t st : ℚ) (bss ass : Bool)
    (hs : s.stream_start_times uid = some st) :
    committedStat (on_voice_state_update ⟨uid, t, ⟨some c, bss⟩, ⟨none, ass⟩⟩ s).1
        uid .stream_time
      = committedStat s uid .stream_time + (t - st) := by
  cases bss <;> cases ass <;>
    · simp only [on_voice_state_update]
      cases hj : s.voice_join_times uid <;>
        simp [hj, hs, committedStat_increment_self]

lemma leave_voice_join_times_none (s : BotState) (uid c : Nat) (t : ℚ) (bss ass : Bool) :
    (on_voice_state_update ⟨uid, t, ⟨some c, bss⟩, ⟨none, ass⟩⟩ s).1.voice_join_times uid
      = none := by
  cases bss <;> cases ass <;>
    · simp only [on_voice_state_update]
      cases hj : s.voice_join_times uid <;>
        cases hs : s.stream_start_times uid <;>
          simp_all [Dict.pop]

lemma leave_stream_start_times_none (s : BotState) (uid c : Nat) (t : ℚ) (bss ass : Bool) :
    (on_voice_state_update ⟨uid, t, ⟨some c, bss⟩, ⟨none, ass⟩⟩ s).1.stream_start_times uid
      = none := by
  cases bss <;> cases ass <;>
    · simp only [on_voice_state_update]
      cases hj : s.voice_join_times uid <;>
        cases hs : s.stream_start_times uid <;>
          simp_all [Dict.pop]

/-! ### `join_count` bookkeeping across one event and across a stream of events -/

lemma joinCount_step (e : VoiceEvent) (s : BotState) (uid : Nat) :
    committedStat (on_voice_state_update e s).1 uid .join_count
      = committedStat s uid .join_count
          + (if isJoinEvent uid e then (1 : ℚ) else 0) := by
  obtain ⟨m, t, ⟨bc, bss⟩, ⟨ac, ass⟩⟩ := e
  by_cases hm : m = uid
  · subst hm
    cases bc <;> cases ac <;> cases bss <;> cases ass <;>
      · simp only [on_voice_state_update, isJoinEvent]
        cases hj : s.voice_join_times m <;>
          cases hs : s.stream_start_times m <;>
            simp_all [committedStat_increment_self]
  · cases bc <;> cases ac <;> cases bss <;> cases ass <;>
      · simp only [on_voice_state_update, isJoinEvent]
        cases hj : s.voice_join_times m <;>
          cases hs : s.stream_start_times m <;>
            simp_all [statOf_increment_other _ _ _ _ _ _ (Or.inl (Ne.symm hm))]

lemma processEvents_joinCount (evs : List VoiceEvent) (s : BotState) (uid : Nat) :
    committedStat (processEvents evs s) uid .join_count
      = committedStat s uid .join_count
          + (evs.countP (fun e => isJoinEvent uid e) : ℚ) := by
  induction evs generalizing s with
  | nil => simp [processEvents]
  | cons e rest ih =>
      have hcons : processEvents (e :: rest) s
          = processEvents rest (on_voice_state_update e s).1 := rfl
      rw [hcons, ih, joinCount_step]
      by_cases h : isJoinEvent uid e = true
      · simp only [List.countP_cons, h, if_true]
        push_cast
        ring
      · simp [List.countP_cons, h]

/-- The handler raises exactly on a stream-start transition whose after
snapshot shows no channel. -/
lemma raise_flag (e : VoiceEvent) (s : BotState) :
    (on_voice_state_update e s).2
      = (!e.before.self_stream && e.after.self_stream && e.after.channel.isNone) := by
  obtain ⟨m, t, ⟨bc, bss⟩, ⟨ac, ass⟩⟩ := e
  cases bc <;> cases ac <;> cases bss <;> cases ass <;>
    · simp only [on_voice_state_update]
      cases hj : s.voice_join_times m <;>
        cases hs : s.stream_start_times m <;>
          simp_all

/-! ### Query lemmas -/

lemma calltime_snd (now : ℚ) (s : BotState) (uid : Nat) :
    (calltime now s uid).2 = touchUser s uid := by
  simp only [calltime, get_user_stat_snd]
  cases h : (touchUser s uid).voice_join_times uid <;> simp [h]

lemma streamtime_snd (now : ℚ) (s : BotState) (uid : Nat) :
    (streamtime now s uid).2 = touchUser s uid := by
  simp only [streamtime, get_user_stat_snd]
  cases h : (touchUser s uid).stream_start_times uid <;> simp [h]

lemma joincount_snd (s : BotState) (uid : Nat) :
    (joincount s uid).2 = touchUser s uid :=
  get_user_stat_snd s uid .join_count

lemma calltime_fst_open (now : ℚ) (s : BotState) (uid : Nat) (jt : ℚ)
    (hj : s.voice_join_times uid = some jt) :
    (calltime now s uid).1 = committedStat s uid .call_time + (now - jt) := by
  simp only [calltime, get_user_stat_snd, touchUser_voice_join_times, hj,
    get_user_stat_fst]

lemma streamtime_fst_open (now : ℚ) (s : BotState) (uid : Nat) (st : ℚ)
    (hs : s.stream_start_times uid = some st) :
    (streamtime now s uid).1 = committedStat s uid .stream_time + (now - st) := by
  simp only [streamtime, get_user_stat_snd, touchUser_stream_start_times, hs,
    get_user_stat_fst]

/-! ### Serialization round trip -/

lemma decodeKey_encodeKey (n : Nat) : decodeKey (encodeKey n) = some n := by
  unfold decodeKey encodeKey
  by_cases h : n = 0
  · subst h
    norm_num [Nat.ofDigits]
  · rw [if_neg h, if_pos]
    · rw [Nat.ofDigits_digits]
    · exact ⟨Nat.digits_ne_nil_iff_ne_zero.mpr h,
        fun d hd => Nat.digits_lt_base (by norm_num) hd⟩

lemma decodeEntries_save (m : List (Nat × UserStats)) :
    decodeEntries (save_stats m) = some m := by
  induction m with
  | nil => rfl
  | cons kv rest ih =>
      obtain ⟨k, v⟩ := kv
      have ih' : decodeEntries (List.map (fun kv => (encodeKey kv.1, kv.2)) rest)
          = some rest := ih
      show decodeEntries ((encodeKey k, v) :: List.map (fun kv => (encodeKey kv.1, kv.2)) rest)
          = some ((k, v) :: rest)
      simp [decodeEntries, decodeKey_encodeKey, ih']

lemma decodeEntries_bad_key (k : List Nat) (v : UserStats) (hbad : decodeKey k = none) :
    ∀ entries : List (List Nat × UserStats),
      (k, v) ∈ entries → decodeEntries entries = none := by
  intro entries
  induction entries with
  | nil => intro h; cases h
  | cons hd rest ih =>
      intro hmem
      obtain ⟨k', v'⟩ := hd
      rcases List.mem_cons.mp hmem with h | h
      · injection h with h1 h2
        subst h1
        simp [decodeEntries, hbad]
      · have hr := ih h
        cases hk : decodeKey k' <;> simp [decodeEntries, hk, hr]

/-! ### Claim theorems -/

/-- Claim C1, amended: on a call-session close transition the Session
Tracker increments `call_time` by the raw delta `now - start_instant`,
with no floor at zero — a negative delta (clock skew) is applied as is
and decreases `call_time`; the zero-floor exists only in the display
formatter `format_duration`. -/
theorem C1_leave_applies_raw_delta (s : BotState) (uid c : Nat) (t jt q : ℚ)
    (bss ass : Bool) (hj : s.voice_join_times uid = some jt) :
    committedStat (on_voice_state_update ⟨uid, t, ⟨some c, bss⟩, ⟨none, ass⟩⟩ s).1
        uid .call_time
      = committedStat s uid .call_time + (t - jt) ∧
    0 ≤ format_duration q := by
  refine ⟨leave_committed_call_time s uid c t jt bss ass hj, ?_⟩
  unfold format_duration
  split
  · norm_num
  · next h => exact Int.floor_nonneg.mpr (le_of_not_lt h)

/-- Claim C1, counterexample: user 1 has committed `call_time = 5` and an
open call session started at `t = 10`; a leave event at `t = 3` (clock
ran backwards) decreases the committed `call_time`, so the claimed
floor-at-zero does not exist in the tracker. -/
theorem C1_no_clamp_cex :
    committedStat (on_voice_state_update ⟨1, 3, ⟨some 9, false⟩, ⟨none, false⟩⟩
        sampleState).1 1 .call_time
      < committedStat sampleState 1 .call_time := by
  have h := leave_committed_call_time sampleState 1 9 3 10 false false rfl
  rw [h]
  show statOf (sampleState.user_stats 1) .call_time + (3 - 10)
      < statOf (sampleState.user_stats 1) .call_time
  norm_num

/-- Claim C1, witness for the amended theorem at a concrete input. -/
theorem C1_leave_applies_raw_delta_wit :
    sampleState.voice_join_times 1 = some 10 ∧
    (committedStat (on_voice_state_update ⟨1, 100, ⟨some 9, false⟩, ⟨none, false⟩⟩
        sampleState).1 1 .call_time
      = committedStat sampleState 1 .call_time + (100 - 10) ∧
    0 ≤ format_duration (-3)) :=
  ⟨rfl, C1_leave_applies_raw_delta sampleState 1 9 100 10 (-3) false false rfl⟩

/-- Claim C2, amended: each of the three queries leaves both open-session
maps unchanged and changes no other user's entry; its only store effect
is `get_user_stat`'s lazy materialization — the queried user's entry
becomes the zero-valued default when absent and is otherwise kept as is. -/
theorem C2_queries_materialize_only (now : ℚ) (s : BotState) (uid k : Nat)
    (hk : k ≠ uid) :
    (calltime now s uid).2 = touchUser s uid ∧
    (streamtime now s uid).2 = touchUser s uid ∧
    (joincount s uid).2 = touchUser s uid ∧
    (touchUser s uid).voice_join_times = s.voice_join_times ∧
    (touchUser s uid).stream_start_times = s.stream_start_times ∧
    (touchUser s uid).user_stats k = s.user_stats k ∧
    (touchUser s uid).user_stats uid = some ((s.user_stats uid).getD defaultStats) := by
  refine ⟨calltime_snd now s uid, streamtime_snd now s uid, joincount_snd s uid,
    touchUser_voice_join_times s uid, touchUser_stream_start_times s uid,
    touchUser_user_stats_other s uid k hk, ?_⟩
  unfold touchUser
  cases hu : s.user_stats uid <;> simp [hu]

/-- Claim C2, counterexample: querying `joincount` for a user the store
has never seen creates a zero-valued entry, so a query does mutate the
Duration Store mapping. -/
theorem C2_query_creates_entry_cex :
    initState.user_stats 1 = none ∧
    (joincount initState 1).2.user_stats 1 = some defaultStats :=
  ⟨rfl, rfl⟩

/-- Claim C2, witness for the amended theorem at a concrete input. -/
theorem C2_queries_materialize_only_wit :
    (2 : Nat) ≠ 1 ∧
    ((calltime 0 initState 1).2 = touchUser initState 1 ∧
    (streamtime 0 initState 1).2 = touchUser initState 1 ∧
    (joincount initState 1).2 = touchUser initState 1 ∧
    (touchUser initState 1).voice_join_times = initState.voice_join_times ∧
    (touchUser initState 1).stream_start_times = initState.stream_start_times ∧
    (touchUser initState 1).user_stats 2 = initState.user_stats 2 ∧
    (touchUser initState 1).user_stats 1
      = some ((initState.user_stats 1).getD defaultStats)) :=
  ⟨by decide, C2_queries_materialize_only 0 initState 1 2 (by decide)⟩

/-- Claim C3, amended: processing an event never raises, except for a
stream-start transition (`self_stream` goes `false → true`) whose after
snapshot shows no channel, where logging dereferences the missing channel
and raises. -/
theorem C3_no_raise_except_streamstart_nochannel (e : VoiceEvent) (s : BotState)
    (h : ¬(e.before.self_stream = false ∧ e.after.self_stream = true ∧
        e.after.channel = none)) :
    (on_voice_state_update e s).2 = false := by
  rw [raise_flag]
  obtain ⟨m, t, ⟨bc, bss⟩, ⟨ac, ass⟩⟩ := e
  cases bc <;> cases ac <;> cases bss <;> cases ass <;> simp_all

/-- Claim C3, counterexample: an event in which the user starts streaming
while the after snapshot shows no channel raises (`after.channel.name` on
`None`), so not every malformed combination is processed without error. -/
theorem C3_streamstart_nochannel_raises_cex :
    (on_voice_state_update ⟨1, 0, ⟨some 5, false⟩, ⟨none, true⟩⟩ initState).2 = true := by
  decide

/-- Claim C3, witness for the amended theorem at a concrete input. -/
theorem C3_no_raise_except_streamstart_nochannel_wit :
    (¬(((⟨1, 0, ⟨none, false⟩, ⟨some 9, false⟩⟩ : VoiceEvent)).before.self_stream = false ∧
        ((⟨1, 0, ⟨none, false⟩, ⟨some 9, false⟩⟩ : VoiceEvent)).after.self_stream = true ∧
        ((⟨1, 0, ⟨none, false⟩, ⟨some 9, false⟩⟩ : VoiceEvent)).after.channel = none)) ∧
    (on_voice_state_update ⟨1, 0, ⟨none, false⟩, ⟨some 9, false⟩⟩ initState).2 = false :=
  ⟨by decide,
    C3_no_raise_except_streamstart_nochannel ⟨1, 0, ⟨none, false⟩, ⟨some 9, false⟩⟩
      initState (by decide)⟩

/-- Claim C4: saving any mapping and loading it back reproduces the
mapping, including the integer→string→integer key conversion. -/
theorem C4_save_load_roundtrip (m : List (Nat × UserStats)) :
    load_stats (some (some (save_stats m))) = m := by
  show (match decodeEntries (save_stats m) with
    | some m => m
    | none => ([] : List (Nat × UserStats))) = m
  rw [decodeEntries_save]

/-- Claim C5: starting from the empty state, a user's committed
`join_count` equals exactly the number of `Closed → Open` call-kind
transitions (no-channel → channel) processed for that user. -/
theorem C5_join_count_counts_joins (evs : List VoiceEvent) (uid : Nat) :
    committedStat (processEvents evs initState) uid .join_count
      = (evs.countP (fun e => isJoinEvent uid e) : ℚ) := by
  have h := processEvents_joinCount evs initState uid
  simpa [initState, Dict.empty, committedStat, statOf] using h

/-- Claim C6: a leave event for a user with both an open call session and
an open stream session closes both in that single event: both open
entries are removed and `call_time` and `stream_time` are credited with
their respective elapsed durations. -/
theorem C6_leave_closes_both_sessions (s : BotState) (uid c : Nat) (t jt st : ℚ)
    (bss ass : Bool) (hj : s.voice_join_times uid = some jt)
    (hs : s.stream_start_times uid = some st) :
    (on_voice_state_update ⟨uid, t, ⟨some c, bss⟩, ⟨none, ass⟩⟩ s).1.voice_join_times uid
      = none ∧
    (on_voice_state_update ⟨uid, t, ⟨some c, bss⟩, ⟨none, ass⟩⟩ s).1.stream_start_times uid
      = none ∧
    committedStat (on_voice_state_update ⟨uid, t, ⟨some c, bss⟩, ⟨none, ass⟩⟩ s).1
        uid .call_time
      = committedStat s uid .call_time + (t - jt) ∧
    committedStat (on_voice_state_update ⟨uid, t, ⟨some c, bss⟩, ⟨none, ass⟩⟩ s).1
        uid .stream_time
      = committedStat s uid .stream_time + (t - st) :=
  ⟨leave_voice_join_times_none s uid c t bss ass,
    leave_stream_start_times_none s uid c t bss ass,
    leave_committed_call_time s uid c t jt bss ass hj,
    leave_committed_stream_time s uid c t st bss ass hs⟩

/-- Claim C6, witness at a concrete input. -/
theorem C6_leave_closes_both_sessions_wit :
    sampleState.voice_join_times 1 = some 10 ∧
    sampleState.stream_start_times 1 = some 20 ∧
    ((on_voice_state_update ⟨1, 100, ⟨some 9, true⟩, ⟨none, false⟩⟩ sampleState).1.voice_join_times 1
      = none ∧
    (on_voice_state_update ⟨1, 100, ⟨some 9, true⟩, ⟨none, false⟩⟩ sampleState).1.stream_start_times 1
      = none ∧
    committedStat (on_voice_state_update ⟨1, 100, ⟨some 9, true⟩, ⟨none, false⟩⟩ sampleState).1
        1 .call_time
      = committedStat sampleState 1 .call_time + (100 - 10) ∧
    committedStat (on_voice_state_update ⟨1, 100, ⟨some 9, true⟩, ⟨none, false⟩⟩ sampleState).1
        1 .stream_time
      = committedStat sampleState 1 .stream_time + (100 - 20)) :=
  ⟨rfl, rfl, C6_leave_closes_both_sessions sampleState 1 9 100 10 20 true false rfl rfl⟩

/-- Claim C7: `load_stats` never fails fatally — a missing file yields the
empty mapping, unparseable JSON yields the empty mapping, and a
non-integer key anywhere in the parsed entries yields the empty mapping. -/
theorem C7_load_never_fails (entries : List (List Nat × UserStats)) (k : List Nat)
    (v : UserStats) :
    load_stats none = [] ∧
    load_stats (some none) = [] ∧
    ((k, v) ∈ entries → decodeKey k = none →
      load_stats (some (some entries)) = []) := by
  refine ⟨rfl, rfl, fun hmem hbad => ?_⟩
  show (match decodeEntries entries with
    | some m => m
    | none => ([] : List (Nat × UserStats))) = []
  rw [decodeEntries_bad_key k v hbad entries hmem]

/-- Claim C7, witness at a concrete input (the entry key `[10]` holds a
non-digit character, so `int(k)` raises and load falls back to empty). -/
theorem C7_load_never_fails_wit :
    ([10], defaultStats) ∈ [([10], defaultStats)] ∧
    decodeKey [10] = none ∧
    load_stats (some (some [([10], defaultStats)])) = [] :=
  ⟨by decide, by decide,
    (C7_load_never_fails [([10], defaultStats)] [10] defaultStats).2.2
      (by decide) (by decide)⟩

/-- Claim C8: while a session of the matching kind is open, a duration
query returns the committed value plus `now - start_instant`; that total
is at least the committed value whenever `start_instant ≤ now`, and it is
monotone in the query time. -/
theorem C8_open_session_query (now now2 : ℚ) (s : BotState) (uid : Nat) (jt st : ℚ) :
    (s.voice_join_times uid = some jt →
      (calltime now s uid).1 = committedStat s uid .call_time + (now - jt) ∧
      (jt ≤ now → committedStat s uid .call_time ≤ (calltime now s uid).1) ∧
      (now ≤ now2 → (calltime now s uid).1 ≤ (calltime now2 s uid).1)) ∧
    (s.stream_start_times uid = some st →
      (streamtime now s uid).1 = committedStat s uid .stream_time + (now - st) ∧
      (st ≤ now → committedStat s uid .stream_time ≤ (streamtime now s uid).1) ∧
      (now ≤ now2 → (streamtime now s uid).1 ≤ (streamtime now2 s uid).1)) := by
  constructor
  · intro hj
    have h1 := calltime_fst_open now s uid jt hj
    have h2 := calltime_fst_open now2 s uid jt hj
    exact ⟨h1, fun hle => by rw [h1]; linarith, fun hle => by rw [h1, h2]; linarith⟩
  · intro hs
    have h1 := streamtime_fst_open now s uid st hs
    have h2 := streamtime_fst_open now2 s uid st hs
    exact ⟨h1, fun hle => by rw [h1]; linarith, fun hle => by rw [h1, h2]; linarith⟩

/-- Claim C8, witness at a concrete input. -/
theorem C8_open_session_query_wit :
    sampleState.voice_join_times 1 = some 10 ∧
    (10 : ℚ) ≤ 50 ∧ (50 : ℚ) ≤ 60 ∧
    (calltime 50 sampleState 1).1 = committedStat sampleState 1 .call_time + (50 - 10) ∧
    committedStat sampleState 1 .call_time ≤ (calltime 50 sampleState 1).1 ∧
    (calltime 50 sampleState 1).1 ≤ (calltime 60 sampleState 1).1 := by
  have h := (C8_open_session_query 50 60 sampleState 1 10 20).1 rfl
  exact ⟨rfl, by decide, by decide, h.1, h.2.1 (by decide), h.2.2 (by decide)⟩

/-- Claim C9: redundant presence transitions — before/after both showing
the user in a channel (even different channels) with `self_stream`
unchanged, or both showing no channel with `self_stream` unchanged —
leave the whole state (both open-session maps and the store) unchanged
and raise nothing; in particular no duplicate open-session entry is
created and no duration is double-counted.  (At most one open session per
kind per user holds structurally: each open-session map is a dict holding
at most one entry per user id.) -/
theorem C9_redundant_transition_noop (s : BotState) (uid bc ac : Nat) (t : ℚ)
    (ss : Bool) :
    on_voice_state_update ⟨uid, t, ⟨some bc, ss⟩, ⟨some ac, ss⟩⟩ s = (s, false) ∧
    on_voice_state_update ⟨uid, t, ⟨none, ss⟩, ⟨none, ss⟩⟩ s = (s, false) := by
  cases ss <;> exact ⟨rfl, rfl⟩

/-- Claim C10: when a user's stored record lacks a field, `get_user_stat`
returns the default `0` without touching the state, and
`increment_user_stat` treats the missing field as `0` and stores
`0 + delta`. -/
theorem C10_missing_field_defaults (s : BotState) (uid : Nat) (r : UserStats)
    (name : StatName) (d : ℚ) (hr : s.user_stats uid = some r)
    (hm : r.get name = none) :
    (get_user_stat s uid name).1 = 0 ∧
    (get_user_stat s uid name).2 = s ∧
    committedStat (increment_user_stat s uid name d) uid name = 0 + d := by
  refine ⟨?_, ?_, ?_⟩
  · rw [get_user_stat_fst]
    simp [committedStat, hr, hm]
  · rw [get_user_stat_snd]
    exact touchUser_of_some s uid r hr
  · rw [committedStat_increment_self]
    simp [hr, hm]

/-- Claim C10, witness at a concrete input: user 1's record in
`partialState` lacks `call_time`. -/
theorem C10_missing_field_defaults_wit :
    partialState.user_stats 1 = some ⟨none, some 2, none⟩ ∧
    (⟨none, some 2, none⟩ : UserStats).get .call_time = none ∧
    ((get_user_stat partialState 1 .call_time).1 = 0 ∧
    (get_user_stat partialState 1 .call_time).2 = partialState ∧
    committedStat (increment_user_stat partialState 1 .call_time 4) 1 .call_time
      = 0 + 4) :=
  ⟨rfl, rfl,
    C10_missing_field_defaults partialState 1 ⟨none, some 2, none⟩ .call_time 4 rfl rfl⟩

end DiscordBot
